import Mathlib

/-!
Verification of the document-validation pipeline of the code-scanner
language server (sources: `server/src/server.ts` and `scannerServer.ts`).

The embedding below translates the server's module-level state (settings
cache, collector registry, capability flags), the validation pipeline
`validateTextDocument`, the `didClose` and `didChangeConfiguration`
handlers, and the `ScannerServer` class.  The external analysis engine
(the `flawed-code-scanner` library) and the per-URI configuration fetch
are external collaborators: they are modelled as oracle functions
supplied in an `Env` record — the engine receives exactly the
configuration object the server builds and reports the list of
`ScanError`s it appended to the shared collector together with a flag
recording whether `run()` threw.
-/

namespace CodeScanner

/-- A line/character position, produced by the text document's
offset-to-position conversion. -/
structure Position where
  line : Nat
  character : Nat
deriving Repr, DecidableEq

/-- A range of two positions (the LSP `start`/`end` pair; the second
field is named `stop` because `end` is a Lean keyword). -/
structure Range where
  start : Position
  stop : Position
deriving Repr, DecidableEq

/-- Modelled from the spec: the `ErrorLevel` enum of the external
`flawed-code-scanner` library — `enum {Error, Warning, Information, Hint}`,
numbered like LSP diagnostic severities. -/
inductive ErrorLevel where
  | error
  | warning
  | information
  | hint
deriving Repr, DecidableEq

/-- Numeric value of an error level (LSP severity numbering). -/
def ErrorLevel.toNat : ErrorLevel → Nat
  | .error => 1
  | .warning => 2
  | .information => 3
  | .hint => 4

/-- The reverse enum mapping used by the source as a string
interpolation head. -/
def ErrorLevel.levelName : ErrorLevel → String
  | .error => "Error"
  | .warning => "Warning"
  | .information => "Information"
  | .hint => "Hint"

/-- A raw finding produced by a scan plugin (spec section 3,
`flawed-code-scanner`'s code-error record): character offsets into the
document text, a level, the plugin's tip, and an optional extra
message. -/
structure ScanError where
  range : Nat × Nat
  errorLevel : ErrorLevel
  pluginTips : String
  extraMsg : Option String
deriving Repr, DecidableEq

/-- One related-information entry of a published diagnostic: a location
(URI plus range) and a message. -/
structure RelatedInformation where
  uri : String
  range : Range
  message : String
deriving Repr, DecidableEq

/-- A published diagnostic, as assembled by `validateTextDocument`. -/
structure Diagnostic where
  severity : ErrorLevel
  range : Range
  message : String
  source : String
  relatedInformation : Option (List RelatedInformation)
deriving Repr, DecidableEq

/-- An open text document: `uri`, `languageId`, `version` and its full
text (`getText()`). -/
structure TextDocument where
  uri : String
  languageId : String
  version : Nat
  text : String
deriving Repr, DecidableEq

/-- Offset-to-position conversion of the text-document library
(`textDocument.positionAt`): the offset is clamped to the text length,
the line is the number of line breaks before it and the character is
the distance to the last line break. -/
def positionAt (text : String) (offset : Nat) : Position :=
  let before := text.toList.take (min offset text.length)
  { line := before.count '\n'
    character := (before.reverse.takeWhile (fun ch => ch ≠ '\n')).length }

/-- One entry of a plugin configuration list (`ScanPluginsConf`): the
plugin name and its optional options record, here a list of named
numeric options. -/
structure ScanPluginsConf where
  plugin : String
  options : Option (List (String × Nat)) := none
deriving Repr, DecidableEq

/-- The server's per-resource settings record (`ISettings`).  The
`scanPluginsConf` field is optional: settings pushed by a client may
omit it, which is what the source's nullish-coalescing fallback
(`settings.scanPluginsConf ?? defaultScannerConfig.scanPlugins`)
guards against. -/
structure ISettings where
  maxNumberOfProblems : Nat
  scanPluginsConf : Option (List ScanPluginsConf)
deriving Repr, DecidableEq

/-- The compiled-in default scanner configuration
(`defaultScannerConfig` in `scannerServer.ts`): five plugins in
declaration order, `needTryCatch` carrying the option `level = 2`. -/
def defaultScannerConfig : List ScanPluginsConf :=
  [ { plugin := "needTryCatch", options := some [("level", 2)] },
    { plugin := "needHandlerInCatch" },
    { plugin := "dangerousAndOperator" },
    { plugin := "dangerousInitState" },
    { plugin := "dangerousDefaultValue" } ]

/-- The compiled-in default settings (`defaultSettings` in
`server.ts`): `maxNumberOfProblems = 1000` and the default plugin
list. -/
def defaultSettings : ISettings :=
  { maxNumberOfProblems := 1000, scanPluginsConf := some defaultScannerConfig }

/-- The supported language ids (`allLanguageIds`). -/
def allLanguageIds : List String :=
  ["javascript", "typescript", "javascriptreact", "typescriptreact"]

/-- The babel parse plugins selected for a language id
(`getPluginByLanguageId`). -/
def getPluginByLanguageId (languageId : String) : List String :=
  if languageId = "javascript" then []
  else if languageId = "typescript" then ["typescript"]
  else if languageId = "javascriptreact" then ["jsx"]
  else if languageId = "typescriptreact" then ["jsx", "typescript"]
  else []

/-- Lookup in a string-keyed map modelled as an association list (the
source's `Map.get` / `Map.has`). -/
def lookupMap {α : Type} (m : List (String × α)) (k : String) : Option α :=
  match m with
  | [] => none
  | p :: rest => if p.1 = k then some p.2 else lookupMap rest k

/-- The collector registry (`collectorMap : Map<string, ErrorCollector>`);
each collector's mutable contents is the list of `ScanError`s it
currently holds. -/
abbrev CollectorMap := List (String × List ScanError)

/-- Lookup-or-insert on the collector registry (`getCollectorByUrl`):
returns the collector's current contents and the updated registry (a
fresh empty collector is registered when the URI is new). -/
def getCollectorByUrl (m : CollectorMap) (uri : String) :
    List ScanError × CollectorMap :=
  match lookupMap m uri with
  | some c => (c, m)
  | none => ([], (uri, []) :: m)

/-- In-place mutation of the collector registered for `uri` (the
effect, on the registry, of calling `clearAll()` on it or of the engine
appending findings to it). -/
def setCollector (m : CollectorMap) (uri : String) (c : List ScanError) :
    CollectorMap :=
  m.map (fun p => if p.1 = uri then (p.1, c) else p)

/-- The library call `Scanner.genScanPluginsConf(conf, collector)`:
builds one plugin instance per configuration entry, in order, attaching
the shared collector to each.  The collector attachment is an aliasing
fact captured by the engine oracle, so the model keeps the ordered
configuration list itself. -/
def genScanPluginsConf (conf : List ScanPluginsConf) : List ScanPluginsConf :=
  conf

/-- The configuration object handed to the engine by
`scanner.setConfig(...)`: the effective plugin list (the settings'
`scanPluginsConf` when non-nullish, else the default list), the
document text, the URI as file path, and the babel parse plugins for
the language id. -/
structure ScannerConfig where
  scanPluginsConf : List ScanPluginsConf
  code : String
  filePath : String
  babelParsePlugins : List String
deriving Repr, DecidableEq

/-- Builds the `ScannerConfig` exactly as `validateTextDocument` does:
`settings.scanPluginsConf ?? defaultScannerConfig.scanPlugins` for the
plugin list, `textDocument.getText()` for the code, the URI for the
file path and `getPluginByLanguageId` for the parse plugins. -/
def scannerConfigFor (settings : ISettings) (doc : TextDocument) :
    ScannerConfig :=
  { scanPluginsConf :=
      genScanPluginsConf
        (match settings.scanPluginsConf with
         | some l => l
         | none => defaultScannerConfig)
    code := doc.text
    filePath := doc.uri
    babelParsePlugins := getPluginByLanguageId doc.languageId }

/-- Observable outcome of one engine invocation (`scanner.run()` after
`scanner.setConfig`): the `ScanError`s the engine appended to the
shared collector before returning or throwing, and whether it threw. -/
structure EngineResult where
  added : List ScanError
  throws : Bool
deriving Repr, DecidableEq

/-- External collaborators of the pipeline: the analysis engine (a
deterministic oracle from the configuration it receives to what it does
to the collector) and the per-URI configuration fetch issued by
`connection.workspace.getConfiguration` in pull mode. -/
structure Env where
  engine : ScannerConfig → EngineResult
  fetchConfig : String → ISettings

/-- The server's module-level mutable state: the capability flags fixed
at initialization, the global settings record (push mode), the
per-document settings cache (pull mode) and the collector registry. -/
structure ServerState where
  hasConfigurationCapability : Bool
  hasDiagnosticRelatedInformationCapability : Bool
  globalSettings : ISettings
  documentSettings : List (String × ISettings)
  collectorMap : CollectorMap

/-- Settings resolution (`getDocumentSettings`): push mode returns the
global record; pull mode memoizes the result of a configuration fetch
keyed by URI. -/
def getDocumentSettings (env : Env) (st : ServerState) (resource : String) :
    ISettings × ServerState :=
  if st.hasConfigurationCapability = false then
    (st.globalSettings, st)
  else
    match lookupMap st.documentSettings resource with
    | some s => (s, st)
    | none =>
      let s := env.fetchConfig resource
      (s, { st with documentSettings := (resource, s) :: st.documentSettings })

/-- One line of server console output produced during a validation run:
the three informational log calls (URI, parsed-path JSON, version) and
the error log emitted by the catch block around `scanner.run()`. -/
inductive LogEntry where
  | logUri (uri : String)
  | logPathInfo (uri : String)
  | logVersion (version : Nat)
  | errorLog (msg : String)
deriving Repr, DecidableEq

/-- Truthiness of the optional `extraMsg` string, as tested by
`if (... && error.extraMsg)`: absent and empty strings are falsy. -/
def strTruthy : Option String → Bool
  | none => false
  | some s => !(s = "")

/-- Mapping of one `ScanError` to a `Diagnostic`, exactly as the
`errors.forEach` body of `validateTextDocument` builds it: severity is
the error level, the range converts both offsets with `positionAt`, the
message interpolates the level name and the plugin tip, the source tag
is fixed, and `relatedInformation` is set only when the
related-information capability holds and `extraMsg` is truthy. -/
def toDiagnostic (relatedCapability : Bool) (doc : TextDocument)
    (error : ScanError) : Diagnostic :=
  let range : Range :=
    { start := positionAt doc.text error.range.1
      stop := positionAt doc.text error.range.2 }
  let base : Diagnostic :=
    { severity := error.errorLevel
      range := range
      message := error.errorLevel.levelName ++ ": " ++ error.pluginTips
      source := "code-scanner"
      relatedInformation := none }
  if relatedCapability && strTruthy error.extraMsg then
    { base with
        relatedInformation :=
          some [{ uri := doc.uri, range := range,
                  message := error.extraMsg.getD "" }] }
  else
    base

/-- The outcome of one `validateTextDocument` call: the server state
after the run, the diagnostics publication (`none` when the run was
rejected, otherwise the URI with the diagnostic array), and the console
output. -/
structure ValidateResult where
  state : ServerState
  published : Option (String × List Diagnostic)
  logs : List LogEntry

/-- The validation pipeline (`validateTextDocument` in `server.ts`):
reject unsupported language ids; resolve settings; obtain and clear the
document's collector; build the scanner configuration; run the engine
inside try/catch (a throw is logged and swallowed); read the collector
back and map each entry to a diagnostic; publish the array for the
URI. -/
def validateTextDocument (env : Env) (st : ServerState) (doc : TextDocument) :
    ValidateResult :=
  if doc.languageId ∈ allLanguageIds then
    let gs := getDocumentSettings env st doc.uri
    let settings := gs.1
    let st1 := gs.2
    let m1 := (getCollectorByUrl st1.collectorMap doc.uri).2
    let m2 := setCollector m1 doc.uri []
    let config := scannerConfigFor settings doc
    let res := env.engine config
    let m3 := setCollector m2 doc.uri res.added
    let errors := (lookupMap m3 doc.uri).getD []
    let diagnostics :=
      errors.map (toDiagnostic st1.hasDiagnosticRelatedInformationCapability doc)
    { state := { st1 with collectorMap := m3 }
      published := some (doc.uri, diagnostics)
      logs :=
        [LogEntry.logUri doc.uri, LogEntry.logPathInfo doc.uri,
         LogEntry.logVersion doc.version] ++
        (if res.throws then [LogEntry.errorLog "code parse error!"] else []) }
  else
    { state := st, published := none, logs := [] }

/-- The `documents.onDidClose` handler: only the settings cache entry
for the closed URI is deleted (`documentSettings.delete(e.document.uri)`);
the collector registry is not touched. -/
def onDidClose (st : ServerState) (uri : String) : ServerState :=
  { st with
      documentSettings := st.documentSettings.filter (fun p => !(p.1 = uri)) }

/-- The state reset performed at the top of the
`connection.onDidChangeConfiguration` handler: pull mode drops the
whole settings cache, push mode replaces the global record with the
payload (`change.settings.languageServerExample || defaultSettings`),
and every registered collector is cleared (`c.clearAll()`). -/
def configChangeReset (st : ServerState) (payload : Option ISettings) :
    ServerState :=
  let st1 :=
    if st.hasConfigurationCapability then
      { st with documentSettings := [] }
    else
      { st with globalSettings := payload.getD defaultSettings }
  { st1 with collectorMap := st1.collectorMap.map (fun p => (p.1, [])) }

/-- Sequential re-validation of the open documents
(`documents.all().forEach(validateTextDocument)`), threading the server
state and collecting each run's publication. -/
def revalidateAll (env : Env) (st : ServerState) (docs : List TextDocument) :
    ServerState × List (Option (String × List Diagnostic)) :=
  match docs with
  | [] => (st, [])
  | d :: rest =>
    let r := validateTextDocument env st d
    let tail := revalidateAll env r.state rest
    (tail.1, r.published :: tail.2)

/-- The `connection.onDidChangeConfiguration` handler: reset the
settings state and the collectors, then re-validate every open
document. -/
def onDidChangeConfiguration (env : Env) (st : ServerState)
    (payload : Option ISettings) (docs : List TextDocument) :
    ServerState × List (Option (String × List Diagnostic)) :=
  revalidateAll env (configChangeReset st payload) docs

/-- The `ScannerServer` class of `scannerServer.ts`: its only
behaviour-relevant field is `_allowRelatedInformation`, declared with
initializer `true`. -/
structure ScannerServer where
  allowRelatedInformation : Bool

/-- The `ScannerServer` constructor: it accepts an optional
`allowRelatedInformation` argument but never assigns it to the field,
so the field keeps its declared initializer `true`. -/
def mkScannerServer (_allow : Option Bool) : ScannerServer :=
  { allowRelatedInformation := true }

/-- The outcome of one `ScannerServer.validate` call: its module's
collector registry after the run, the publication, and the console
output. -/
structure ScanValidateResult where
  collectorMap : CollectorMap
  published : Option (String × List Diagnostic)
  logs : List LogEntry

/-- The `ScannerServer.validate` method: identical pipeline to
`validateTextDocument` except that the settings record arrives as a
parameter and the related-information gate is the instance field
`_allowRelatedInformation`. -/
def ScannerServer.validate (srv : ScannerServer) (env : Env)
    (cm : CollectorMap) (doc : TextDocument) (settings : ISettings) :
    ScanValidateResult :=
  if doc.languageId ∈ allLanguageIds then
    let m1 := (getCollectorByUrl cm doc.uri).2
    let m2 := setCollector m1 doc.uri []
    let config := scannerConfigFor settings doc
    let res := env.engine config
    let m3 := setCollector m2 doc.uri res.added
    let errors := (lookupMap m3 doc.uri).getD []
    let diagnostics := errors.map (toDiagnostic srv.allowRelatedInformation doc)
    { collectorMap := m3
      published := some (doc.uri, diagnostics)
      logs :=
        [LogEntry.logUri doc.uri, LogEntry.logPathInfo doc.uri,
         LogEntry.logVersion doc.version] ++
        (if res.throws then [LogEntry.errorLog "code parse error!"] else []) }
  else
    { collectorMap := cm, published := none, logs := [] }

/-- A supported TypeScript document used as a concrete fixture. -/
def docTs : TextDocument :=
  { uri := "file:///a.ts", languageId := "typescript", version := 1,
    text := "const a = 1" }

/-- An unsupported plain-text document used as a concrete fixture. -/
def docTxt : TextDocument :=
  { uri := "file:///a.txt", languageId := "plaintext", version := 1,
    text := "hello" }

/-- A sample scan error carrying a non-empty extra message. -/
def errBoom : ScanError :=
  { range := (0, 5), errorLevel := .warning, pluginTips := "wrap in try catch",
    extraMsg := some "boom" }

/-- A scan error whose extra message is present but empty. -/
def errEmptyExtra : ScanError :=
  { range := (0, 1), errorLevel := .warning, pluginTips := "tip",
    extraMsg := some "" }

/-- An engine oracle that finds nothing and never throws. -/
def envNull : Env :=
  { engine := fun _ => { added := [], throws := false },
    fetchConfig := fun _ => defaultSettings }

/-- An engine oracle that reports one finding and never throws. -/
def envOne : Env :=
  { engine := fun _ => { added := [errBoom], throws := false },
    fetchConfig := fun _ => defaultSettings }

/-- An engine oracle that appends one finding and then throws. -/
def envThrow : Env :=
  { engine := fun _ => { added := [errBoom], throws := true },
    fetchConfig := fun _ => defaultSettings }

/-- A push-mode server state with the related-information capability. -/
def stPush : ServerState :=
  { hasConfigurationCapability := false
    hasDiagnosticRelatedInformationCapability := true
    globalSettings := defaultSettings
    documentSettings := []
    collectorMap := [] }

/-- A pull-mode server state holding one cached settings entry and one
registered collector for the TypeScript fixture document. -/
def stPull : ServerState :=
  { hasConfigurationCapability := true
    hasDiagnosticRelatedInformationCapability := true
    globalSettings := defaultSettings
    documentSettings := [("file:///a.ts", defaultSettings)]
    collectorMap := [("file:///a.ts", [errBoom])] }

/-! ## Helper lemmas about the map model -/

/-- Deleting a key from a string-keyed map leaves no binding for it. -/
theorem lookupMap_filter_self {α : Type} (m : List (String × α)) (uri : String) :
    lookupMap (m.filter (fun p => !(p.1 = uri))) uri = none := by
  induction m with
  | nil => rfl
  | cons p rest ih =>
    by_cases hp : p.1 = uri
    · simpa [List.filter, hp] using ih
    · simpa [List.filter, hp, lookupMap] using ih

/-- Overwriting the collector registered for a URI yields exactly the
new contents, provided the URI is registered. -/
theorem lookupMap_setCollector_self (m : CollectorMap) (uri : String)
    (c : List ScanError) (h : (lookupMap m uri).isSome = true) :
    lookupMap (setCollector m uri c) uri = some c := by
  induction m with
  | nil => simp [lookupMap] at h
  | cons p rest ih =>
    by_cases hp : p.1 = uri
    · simp [setCollector, lookupMap, hp]
    · simp only [lookupMap, hp, if_false, if_neg hp] at h
      simpa [setCollector, lookupMap, hp] using ih h

/-- After `getCollectorByUrl`, the URI is registered. -/
theorem getCollectorByUrl_isSome (m : CollectorMap) (uri : String) :
    (lookupMap (getCollectorByUrl m uri).2 uri).isSome = true := by
  unfold getCollectorByUrl
  cases hl : lookupMap m uri with
  | none => simp [lookupMap]
  | some c => simp [hl]

/-- Overwriting a registered collector keeps the URI registered. -/
theorem setCollector_isSome (m : CollectorMap) (uri : String)
    (c : List ScanError) (h : (lookupMap m uri).isSome = true) :
    (lookupMap (setCollector m uri c) uri).isSome = true := by
  rw [lookupMap_setCollector_self m uri c h]
  rfl

/-- The read-back of the collector after clearing it and letting the
engine append its findings is exactly the engine's findings. -/
theorem lookupMap_readback (m : CollectorMap) (uri : String)
    (c₁ c₂ : List ScanError) :
    lookupMap
      (setCollector (setCollector (getCollectorByUrl m uri).2 uri c₁) uri c₂)
      uri = some c₂ :=
  lookupMap_setCollector_self _ uri c₂
    (setCollector_isSome _ uri c₁ (getCollectorByUrl_isSome m uri))

/-- Clearing every collector of the registry maps each binding to the
empty contents. -/
theorem lookupMap_map_clear (m : CollectorMap) (uri : String) :
    lookupMap (m.map (fun p => (p.1, ([] : List ScanError)))) uri
      = (lookupMap m uri).map (fun _ => []) := by
  induction m with
  | nil => rfl
  | cons p rest ih =>
    by_cases hp : p.1 = uri
    · simp [lookupMap, hp]
    · simpa [lookupMap, hp] using ih

/-- Re-validating a document list produces one publication slot per
document. -/
theorem revalidateAll_length (env : Env) (st : ServerState)
    (docs : List TextDocument) :
    (revalidateAll env st docs).2.length = docs.length := by
  induction docs generalizing st with
  | nil => rfl
  | cons d rest ih => simp [revalidateAll, ih]

/-! ## Helper lemmas about settings resolution and the pipeline -/

/-- Settings resolution never changes the capability flags, the global
settings record or the collector registry. -/
theorem getDocumentSettings_preserves (env : Env) (st : ServerState) (r : String) :
    (getDocumentSettings env st r).2.hasConfigurationCapability
        = st.hasConfigurationCapability
    ∧ (getDocumentSettings env st r).2.hasDiagnosticRelatedInformationCapability
        = st.hasDiagnosticRelatedInformationCapability
    ∧ (getDocumentSettings env st r).2.globalSettings = st.globalSettings
    ∧ (getDocumentSettings env st r).2.collectorMap = st.collectorMap := by
  unfold getDocumentSettings
  by_cases hc : st.hasConfigurationCapability = false
  · simp [hc]
  · cases hl : lookupMap st.documentSettings r with
    | some s => simp [hc, hl]
    | none => simp [hc, hl]

/-- Resolving settings twice for the same resource yields the same
record without further state change (the cache memoizes). -/
theorem getDocumentSettings_idem (env : Env) (st : ServerState) (r : String) :
    getDocumentSettings env (getDocumentSettings env st r).2 r
      = ((getDocumentSettings env st r).1, (getDocumentSettings env st r).2) := by
  unfold getDocumentSettings
  by_cases hc : st.hasConfigurationCapability = false
  · simp [hc]
  · cases hl : lookupMap st.documentSettings r with
    | some s => simp [hc, hl]
    | none => simp [hc, hl, lookupMap]

/-- Settings resolution ignores the collector registry. -/
theorem getDocumentSettings_collector (env : Env) (st : ServerState)
    (m : CollectorMap) (r : String) :
    getDocumentSettings env { st with collectorMap := m } r
      = ((getDocumentSettings env st r).1,
         { (getDocumentSettings env st r).2 with collectorMap := m }) := by
  unfold getDocumentSettings
  by_cases hc : st.hasConfigurationCapability = false
  · simp [hc]
  · cases hl : lookupMap st.documentSettings r with
    | some s => simp [hc, hl]
    | none => simp [hc, hl]

/-- The resolved settings record only depends on the capability flag,
the global settings and the settings cache. -/
theorem getDocumentSettings_fst_congr (env : Env) (st₁ st₂ : ServerState)
    (r : String)
    (h1 : st₂.hasConfigurationCapability = st₁.hasConfigurationCapability)
    (h2 : st₂.globalSettings = st₁.globalSettings)
    (h3 : st₂.documentSettings = st₁.documentSettings) :
    (getDocumentSettings env st₂ r).1 = (getDocumentSettings env st₁ r).1 := by
  unfold getDocumentSettings
  by_cases hc : st₁.hasConfigurationCapability = false
  · simp [hc, h1, h2]
  · have hc₂ : ¬(st₂.hasConfigurationCapability = false) := by
      rw [h1]; exact hc
    cases hl : lookupMap st₁.documentSettings r with
    | some s => simp [hc, hc₂, h3, hl]
    | none => simp [hc, hc₂, h3, hl]

/-- Re-resolving settings after a run that only modified the collector
registry yields the same settings record. -/
theorem getDocumentSettings_after_collector_update (env : Env)
    (st : ServerState) (r : String) (m : CollectorMap) :
    (getDocumentSettings env
        { (getDocumentSettings env st r).2 with collectorMap := m } r).1
      = (getDocumentSettings env st r).1 := by
  rw [getDocumentSettings_fst_congr env (getDocumentSettings env st r).2
      { (getDocumentSettings env st r).2 with collectorMap := m } r rfl rfl rfl,
    getDocumentSettings_idem]

/-- Closed form of a successful validation run's publication: the
engine's findings under the resolved settings, each mapped to a
diagnostic under the session's related-information capability. -/
theorem validate_published_formula (env : Env) (st : ServerState)
    (doc : TextDocument) (h : doc.languageId ∈ allLanguageIds) :
    (validateTextDocument env st doc).published
      = some (doc.uri,
          ((env.engine
              (scannerConfigFor (getDocumentSettings env st doc.uri).1 doc)).added).map
            (toDiagnostic st.hasDiagnosticRelatedInformationCapability doc)) := by
  unfold validateTextDocument
  rw [if_pos h]
  simp [lookupMap_readback, (getDocumentSettings_preserves env st doc.uri).2.1]

/-- Closed form of a successful validation run's final state. -/
theorem validate_state_formula (env : Env) (st : ServerState)
    (doc : TextDocument) (h : doc.languageId ∈ allLanguageIds) :
    (validateTextDocument env st doc).state
      = { (getDocumentSettings env st doc.uri).2 with
          collectorMap :=
            setCollector
              (setCollector
                (getCollectorByUrl
                  (getDocumentSettings env st doc.uri).2.collectorMap doc.uri).2
                doc.uri [])
              doc.uri
              (env.engine
                (scannerConfigFor (getDocumentSettings env st doc.uri).1 doc)).added } := by
  unfold validateTextDocument
  rw [if_pos h]

/-- Closed form of a successful `ScannerServer.validate` publication. -/
theorem scannerServer_published_formula (srv : ScannerServer) (env : Env)
    (cm : CollectorMap) (doc : TextDocument) (settings : ISettings)
    (h : doc.languageId ∈ allLanguageIds) :
    (srv.validate env cm doc settings).published
      = some (doc.uri,
          ((env.engine (scannerConfigFor settings doc)).added).map
            (toDiagnostic srv.allowRelatedInformation doc)) := by
  unfold ScannerServer.validate
  rw [if_pos h]
  simp [lookupMap_readback]

/-! ## Claim theorems -/

/-- C1: for every validation run of a document with a supported
language id, the published diagnostics array has exactly one entry per
`ScanError` held by the document's collector at read-back time, the
collector's read-back content is exactly what the engine produced in
this run (the collector was cleared before any plugin executed), and
the publication is independent of whatever the collector registry held
before the run — no `ScanError` carries over from a previous run. -/
theorem validate_clears_collector_and_counts (env : Env) (st : ServerState)
    (doc : TextDocument) (h : doc.languageId ∈ allLanguageIds) :
    ∃ ds,
      (validateTextDocument env st doc).published = some (doc.uri, ds)
      ∧ lookupMap (validateTextDocument env st doc).state.collectorMap doc.uri
          = some (env.engine
              (scannerConfigFor (getDocumentSettings env st doc.uri).1 doc)).added
      ∧ ds.length
          = ((lookupMap (validateTextDocument env st doc).state.collectorMap
                doc.uri).getD []).length
      ∧ ∀ m, (validateTextDocument env { st with collectorMap := m } doc).published
          = (validateTextDocument env st doc).published := by
  refine ⟨_, validate_published_formula env st doc h, ?_, ?_, ?_⟩
  · rw [validate_state_formula env st doc h]
    simpa using lookupMap_readback _ doc.uri _ _
  · rw [validate_state_formula env st doc h]
    simp [lookupMap_readback]
  · intro m
    rw [validate_published_formula env _ doc h, validate_published_formula env st doc h]
    simp [getDocumentSettings_collector]

/-- C1 witness. -/
theorem validate_clears_collector_and_counts_witness :
    docTs.languageId ∈ allLanguageIds
    ∧ ∃ ds,
        (validateTextDocument envOne stPull docTs).published = some (docTs.uri, ds)
        ∧ lookupMap (validateTextDocument envOne stPull docTs).state.collectorMap docTs.uri
            = some (envOne.engine
                (scannerConfigFor (getDocumentSettings envOne stPull docTs.uri).1 docTs)).added
        ∧ ds.length
            = ((lookupMap (validateTextDocument envOne stPull docTs).state.collectorMap
                  docTs.uri).getD []).length
        ∧ ∀ m, (validateTextDocument envOne { stPull with collectorMap := m } docTs).published
            = (validateTextDocument envOne stPull docTs).published :=
  ⟨by decide, validate_clears_collector_and_counts envOne stPull docTs (by decide)⟩

/-- C2: for every document whose language id is outside the supported
set, `validateTextDocument` is a no-op — it returns the state unchanged
(no collector or settings-cache change), publishes nothing and logs
nothing, for every engine and configuration-fetch oracle. -/
theorem validate_unsupported_noop (env : Env) (st : ServerState)
    (doc : TextDocument) (h : doc.languageId ∉ allLanguageIds) :
    validateTextDocument env st doc
      = { state := st, published := none, logs := [] } := by
  unfold validateTextDocument
  rw [if_neg h]

/-- C2 witness. -/
theorem validate_unsupported_noop_witness :
    docTxt.languageId ∉ allLanguageIds
    ∧ validateTextDocument envOne stPull docTxt
        = { state := stPull, published := none, logs := [] } :=
  ⟨by decide, validate_unsupported_noop envOne stPull docTxt (by decide)⟩

/-- C3 counterexample: with a settings record whose `scanPluginsConf`
is present but empty, the configuration handed to the engine is the
empty plugin list, not the five compiled-in defaults — the source's
nullish-coalescing fallback does not treat an empty sequence as
absent. -/
theorem effective_plugins_empty_counterexample :
    (scannerConfigFor { maxNumberOfProblems := 1000, scanPluginsConf := some [] }
        docTs).scanPluginsConf = []
    ∧ ([] : List ScanPluginsConf) ≠ defaultScannerConfig := by
  refine ⟨rfl, ?_⟩
  decide

/-- C3 (amended): the plugin configuration handed to the engine is the
Settings record's `scanPluginsConf` whenever that sequence is present
(non-nullish), even when it is empty, and exactly the five compiled-in
default plugins — `needTryCatch` with option `level = 2`,
`needHandlerInCatch`, `dangerousAndOperator`, `dangerousInitState`,
`dangerousDefaultValue`, in that order — only when it is absent; every
successful validation run invokes the engine on exactly this
configuration. -/
theorem effective_plugins_nullish_fallback (settings : ISettings)
    (doc : TextDocument) :
    (∀ l, settings.scanPluginsConf = some l →
        (scannerConfigFor settings doc).scanPluginsConf = l)
    ∧ (settings.scanPluginsConf = none →
        (scannerConfigFor settings doc).scanPluginsConf = defaultScannerConfig)
    ∧ defaultScannerConfig =
        [ { plugin := "needTryCatch", options := some [("level", 2)] },
          { plugin := "needHandlerInCatch", options := none },
          { plugin := "dangerousAndOperator", options := none },
          { plugin := "dangerousInitState", options := none },
          { plugin := "dangerousDefaultValue", options := none } ]
    ∧ ∀ (env : Env) (st : ServerState), doc.languageId ∈ allLanguageIds →
        (validateTextDocument env st doc).published
          = some (doc.uri,
              ((env.engine
                  (scannerConfigFor (getDocumentSettings env st doc.uri).1 doc)).added).map
                (toDiagnostic st.hasDiagnosticRelatedInformationCapability doc)) := by
  refine ⟨?_, ?_, rfl, ?_⟩
  · intro l hl
    simp [scannerConfigFor, genScanPluginsConf, hl]
  · intro hl
    simp [scannerConfigFor, genScanPluginsConf, hl]
  · intro env st h
    exact validate_published_formula env st doc h

/-- C3 witness. -/
theorem effective_plugins_nullish_fallback_witness :
    (scannerConfigFor
        { maxNumberOfProblems := 1000,
          scanPluginsConf := some [{ plugin := "needTryCatch", options := none }] }
        docTs).scanPluginsConf
      = [{ plugin := "needTryCatch", options := none }]
    ∧ (scannerConfigFor { maxNumberOfProblems := 1000, scanPluginsConf := none }
        docTs).scanPluginsConf = defaultScannerConfig :=
  ⟨(effective_plugins_nullish_fallback _ docTs).1 _ rfl,
   (effective_plugins_nullish_fallback _ docTs).2.1 rfl⟩

/-- C4 counterexample: a `ScanError` whose `extraMsg` is present but
empty gets no `relatedInformation` even when the session capability is
true — the source tests JavaScript truthiness, under which the empty
string counts as absent. -/
theorem toDiagnostic_empty_extraMsg_counterexample :
    errEmptyExtra.extraMsg.isSome = true
    ∧ (toDiagnostic true docTs errEmptyExtra).relatedInformation = none := by
  exact ⟨rfl, rfl⟩

/-- C4 (amended): for every `ScanError` mapped to a `Diagnostic`, the
severity equals the error level, the message is the level's name
followed by a colon, a space and `pluginTips`, and a single
`relatedInformation` entry (echoing the document's URI, the same range
and `extraMsg` as its message) is attached exactly when `extraMsg` is
present and non-empty AND the related-information capability is true;
otherwise the field is absent entirely. -/
theorem toDiagnostic_mapping (cap : Bool) (doc : TextDocument) (e : ScanError) :
    (toDiagnostic cap doc e).severity = e.errorLevel
    ∧ (toDiagnostic cap doc e).message
        = e.errorLevel.levelName ++ ": " ++ e.pluginTips
    ∧ (∀ s, e.extraMsg = some s → s ≠ "" → cap = true →
        (toDiagnostic cap doc e).relatedInformation
          = some [{ uri := doc.uri, range := (toDiagnostic cap doc e).range,
                    message := s }])
    ∧ ((cap = false ∨ e.extraMsg = none ∨ e.extraMsg = some "") →
        (toDiagnostic cap doc e).relatedInformation = none) := by
  refine ⟨?_, ?_, ?_, ?_⟩
  · unfold toDiagnostic
    split <;> rfl
  · unfold toDiagnostic
    split <;> rfl
  · intro s hs hne hcap
    unfold toDiagnostic
    simp [hcap, hs, strTruthy, hne]
  · intro hdisj
    unfold toDiagnostic
    rcases hdisj with hc | hn | he
    · simp [hc]
    · simp [hn, strTruthy]
    · simp [he, strTruthy]

/-- C4 witness. -/
theorem toDiagnostic_mapping_witness :
    (toDiagnostic true docTs errBoom).severity = errBoom.errorLevel
    ∧ (toDiagnostic true docTs errBoom).relatedInformation
        = some [{ uri := docTs.uri,
                  range := (toDiagnostic true docTs errBoom).range,
                  message := "boom" }]
    ∧ (toDiagnostic false docTs errBoom).relatedInformation = none :=
  ⟨(toDiagnostic_mapping true docTs errBoom).1,
   (toDiagnostic_mapping true docTs errBoom).2.2.1 "boom" rfl (by decide) rfl,
   (toDiagnostic_mapping false docTs errBoom).2.2.2 (Or.inl rfl)⟩

/-- C5 counterexample: closing a document removes its settings-cache
entry but the collector registry still holds the collector keyed by
that URI — the `didClose` handler only deletes from the settings
cache. -/
theorem onDidClose_retains_collector_counterexample :
    (lookupMap stPull.collectorMap "file:///a.ts").isSome = true
    ∧ (lookupMap (onDidClose stPull "file:///a.ts").collectorMap
          "file:///a.ts").isSome = true := by
  exact ⟨rfl, rfl⟩

/-- C5 (amended): after a `didClose` notification for a URI, the cached
Settings entry for that URI is removed, but the document's
`ErrorCollector` is not — the collector registry is left completely
unchanged. -/
theorem onDidClose_removes_settings_only (st : ServerState) (uri : String) :
    lookupMap (onDidClose st uri).documentSettings uri = none
    ∧ (onDidClose st uri).collectorMap = st.collectorMap :=
  ⟨lookupMap_filter_self st.documentSettings uri, rfl⟩

/-- C6: when the engine's run throws during a validation of a supported
document, the failure is caught at the pipeline boundary — the run
still publishes the diagnostics derived from exactly the `ScanError`s
the collector had accumulated before the failure (possibly none), and
the failure is logged as a server console error. -/
theorem validate_engine_failure_failsoft (env : Env) (st : ServerState)
    (doc : TextDocument) (h : doc.languageId ∈ allLanguageIds)
    (ht : (env.engine
        (scannerConfigFor (getDocumentSettings env st doc.uri).1 doc)).throws = true) :
    (validateTextDocument env st doc).published
      = some (doc.uri,
          ((env.engine
              (scannerConfigFor (getDocumentSettings env st doc.uri).1 doc)).added).map
            (toDiagnostic st.hasDiagnosticRelatedInformationCapability doc))
    ∧ LogEntry.errorLog "code parse error!" ∈ (validateTextDocument env st doc).logs := by
  refine ⟨validate_published_formula env st doc h, ?_⟩
  unfold validateTextDocument
  rw [if_pos h]
  simp [ht]

/-- C6 witness. -/
theorem validate_engine_failure_failsoft_witness :
    (validateTextDocument envThrow stPush docTs).published
      = some (docTs.uri,
          ((envThrow.engine
              (scannerConfigFor (getDocumentSettings envThrow stPush docTs.uri).1 docTs)).added).map
            (toDiagnostic stPush.hasDiagnosticRelatedInformationCapability docTs))
    ∧ LogEntry.errorLog "code parse error!"
        ∈ (validateTextDocument envThrow stPush docTs).logs :=
  validate_engine_failure_failsoft envThrow stPush docTs (by decide) rfl

/-- C7: on a configuration-change notification, pull mode drops the
entire per-URI settings cache while push mode replaces the global
settings record wholesale (falling back to the compiled-in default when
the payload is absent); every collector in the registry is cleared; and
the handler then re-validates every open document, producing one
publication slot per document. -/
theorem didChangeConfiguration_behaviour (env : Env) (st : ServerState)
    (payload : Option ISettings) (docs : List TextDocument) :
    (st.hasConfigurationCapability = true →
        (configChangeReset st payload).documentSettings = [])
    ∧ (st.hasConfigurationCapability = false →
        (configChangeReset st payload).globalSettings = payload.getD defaultSettings
        ∧ (configChangeReset st payload).documentSettings = st.documentSettings)
    ∧ (∀ uri, lookupMap (configChangeReset st payload).collectorMap uri
        = (lookupMap st.collectorMap uri).map (fun _ => []))
    ∧ onDidChangeConfiguration env st payload docs
        = revalidateAll env (configChangeReset st payload) docs
    ∧ (onDidChangeConfiguration env st payload docs).2.length = docs.length := by
  refine ⟨?_, ?_, ?_, rfl, ?_⟩
  · intro hc
    simp [configChangeReset, hc]
  · intro hc
    simp [configChangeReset, hc]
  · intro uri
    by_cases hc : st.hasConfigurationCapability
    · simp [configChangeReset, hc, lookupMap_map_clear]
    · simp [configChangeReset, hc, lookupMap_map_clear]
  · exact revalidateAll_length env _ docs

/-- C7 witness. -/
theorem didChangeConfiguration_behaviour_witness :
    (configChangeReset stPull none).documentSettings = []
    ∧ lookupMap (configChangeReset stPull none).collectorMap "file:///a.ts"
        = (lookupMap stPull.collectorMap "file:///a.ts").map (fun _ => [])
    ∧ (onDidChangeConfiguration envNull stPull none [docTs]).2.length
        = [docTs].length :=
  ⟨(didChangeConfiguration_behaviour envNull stPull none [docTs]).1 rfl,
   (didChangeConfiguration_behaviour envNull stPull none [docTs]).2.2.1 "file:///a.ts",
   (didChangeConfiguration_behaviour envNull stPull none [docTs]).2.2.2.2⟩

/-- C8: every validation run of a supported document ends by publishing
a diagnostics array for that document's URI, even when the array is
empty. -/
theorem validate_always_publishes (env : Env) (st : ServerState)
    (doc : TextDocument) (h : doc.languageId ∈ allLanguageIds) :
    ∃ ds, (validateTextDocument env st doc).published = some (doc.uri, ds) :=
  ⟨_, validate_published_formula env st doc h⟩

/-- C8 witness: with an engine that finds nothing, the run publishes
the empty array. -/
theorem validate_always_publishes_witness :
    docTs.languageId ∈ allLanguageIds
    ∧ ∃ ds, (validateTextDocument envNull stPush docTs).published
        = some (docTs.uri, ds) :=
  ⟨by decide, validate_always_publishes envNull stPush docTs (by decide)⟩

/-- C9: validating the same document twice in a row with no intervening
events publishes an identical diagnostics array both times. -/
theorem validate_idempotent (env : Env) (st : ServerState) (doc : TextDocument) :
    (validateTextDocument env (validateTextDocument env st doc).state doc).published
      = (validateTextDocument env st doc).published := by
  by_cases h : doc.languageId ∈ allLanguageIds
  · rw [validate_published_formula env _ doc h,
      validate_published_formula env st doc h,
      validate_state_formula env st doc h,
      getDocumentSettings_after_collector_update]
    simp [(getDocumentSettings_preserves env st doc.uri).2.1]
  · simp [validateTextDocument, h]

/-- C10: `ScannerServer.validate` publishes the same diagnostics array
as the top-level `validateTextDocument` whenever the session negotiated
the related-information capability as true and the settings it receives
are the ones the pipeline resolves; the constructor's
`allowRelatedInformation` argument has no effect — the instance's field
is always true. -/
theorem scannerServer_refines_validateTextDocument (b : Option Bool)
    (env : Env) (st : ServerState) (cm : CollectorMap) (doc : TextDocument)
    (settings : ISettings)
    (hcap : st.hasDiagnosticRelatedInformationCapability = true)
    (hset : (getDocumentSettings env st doc.uri).1 = settings) :
    ((mkScannerServer b).validate env cm doc settings).published
      = (validateTextDocument env st doc).published
    ∧ (mkScannerServer b).allowRelatedInformation = true := by
  refine ⟨?_, rfl⟩
  by_cases h : doc.languageId ∈ allLanguageIds
  · rw [scannerServer_published_formula _ env cm doc settings h,
      validate_published_formula env st doc h, hset, hcap]
    rfl
  · simp [ScannerServer.validate, validateTextDocument, h]

/-- C10 witness. -/
theorem scannerServer_refines_validateTextDocument_witness :
    ((mkScannerServer (some false)).validate envOne [] docTs defaultSettings).published
      = (validateTextDocument envOne stPush docTs).published
    ∧ (mkScannerServer (some false)).allowRelatedInformation = true :=
  scannerServer_refines_validateTextDocument (some false) envOne stPush [] docTs
    defaultSettings rfl rfl

end CodeScanner
